import Mathlib

/-!
# Verification of the Nation-Park-MCP resilience-and-aggregation layer

A shallow embedding, in Lean 4, of the resilience-and-aggregation core of
the Nation-Park-MCP repository: failure classification
(`src/api/external_client.py`), provider clients (`src/api/weather.py`,
`src/api/air_quality.py`), normalization adapters and orchestration
(`src/handlers/get_weather.py`, `src/handlers/get_air_quality.py`,
`src/handlers/get_park_context.py`, `src/handlers/geocode_location.py`,
`src/handlers/reverse_geocode.py`).

JSON values are modelled by the inductive type `JValue` (numbers as `Rat`).
Python exceptions are modelled by `Except`: `NPSAPIError` for the
repository's canonical error class, and `PyExc` when a generic Python
exception must be distinguished from an `NPSAPIError`.  Network effects are
modelled by passing oracles (functions from request parameters to a
response-or-error) into the embedded functions; each embedded operation
also returns a trace of the provider calls it actually issued, so that
"no network call is attempted" becomes a statement about the trace.
-/

/-- A JSON value.  Numbers are rationals (the claims under study never
depend on binary floating-point rounding); both the JSON `null` and the
Python `None` that `dict.get` returns for a missing key are `JValue.null`. -/
inductive JValue where
  | null : JValue
  | bool : Bool → JValue
  | num : Rat → JValue
  | str : String → JValue
  | arr : List JValue → JValue
  | obj : List (String × JValue) → JValue

/-- The fields of a JSON object / a Python dict (insertion order preserved,
keys unique as in a Python dict). -/
abbrev Params := List (String × JValue)

/-- Presence-aware key lookup on an association list: `d[k]` when the key
exists, `none` otherwise (first occurrence; Python dict keys are unique). -/
def jlookup (fields : Params) (k : String) : Option JValue :=
  (fields.find? (fun p => p.1 == k)).map Prod.snd

/-- Python `d.get(k)`: the value when present, `None` (here `JValue.null`)
otherwise. -/
def pyGet (fields : Params) (k : String) : JValue :=
  (jlookup fields k).getD .null

/-- Python `d.get(k, default)` on a dict known to be a dict. -/
def pyGetD (fields : Params) (k : String) (d : JValue) : JValue :=
  (jlookup fields k).getD d

/-- Python `v.get(k)` on a value that the code assumes is a dict: raises
`AttributeError` (modelled as `Except.error`) when `v` is not a dict. -/
def pyGetE (v : JValue) (k : String) : Except String JValue :=
  match v with
  | .obj fs => .ok (pyGet fs k)
  | _ => .error "AttributeError: object has no attribute get"

/-- Python `v.get(k, default)` on a value that the code assumes is a dict. -/
def pyGetDE (v : JValue) (k : String) (d : JValue) : Except String JValue :=
  match v with
  | .obj fs => .ok (pyGetD fs k d)
  | _ => .error "AttributeError: object has no attribute get"

/-- Python truthiness of a JSON value: `None`, `False`, `0`, `""`, `[]` and
`{}` are falsy, everything else truthy. -/
def jTruthy : JValue → Bool
  | .null => false
  | .bool b => b
  | .num q => q != 0
  | .str s => !s.isEmpty
  | .arr xs => !xs.isEmpty
  | .obj fs => !fs.isEmpty

/-- Observation helper for theorem statements: field `k` of a JSON object,
`null` on a non-object or a missing key. -/
def jget (v : JValue) (k : String) : JValue :=
  match v with
  | .obj fs => pyGet fs k
  | _ => .null

/-- The keys of a JSON object, in order (`[]` on a non-object). -/
def topKeys : JValue → List String
  | .obj fs => fs.map Prod.fst
  | _ => []

/-- Python `d[k] = x` on a dict: replace the value of an existing key in
place, append a fresh key at the end (Python dicts preserve insertion
order).  On a non-object the value is returned unchanged (the embedded code
only ever applies it to objects it has just built). -/
def jset (v : JValue) (k : String) (x : JValue) : JValue :=
  match v with
  | .obj fs =>
      if fs.any (fun p => p.1 == k) then
        .obj (fs.map (fun p => if p.1 == k then (p.1, x) else p))
      else
        .obj (fs ++ [(k, x)])
  | _ => v

/-- Python `a.update(b)` on dicts: values of keys already in `a` are
replaced in place, keys only in `b` are appended in `b`'s order. -/
def pyUpdate (a b : Params) : Params :=
  (a.map (fun p => match jlookup b p.1 with
    | some v => (p.1, v)
    | none => p))
  ++ b.filter (fun q => !(a.any (fun p => p.1 == q.1)))

/-- Python truthiness test `not s` for an optional string configuration
value: `None` and `""` are falsy. -/
def strFalsy : Option String → Bool
  | none => true
  | some s => s.isEmpty

/-- Python `s or default` for an optional string (used for
`request.units or "metric"`). -/
def pyOrStr (s : Option String) (d : String) : String :=
  match s with
  | some v => if v.isEmpty then d else v
  | none => d

example : jTruthy (JValue.num 0) = false := by decide
example : pyGet [("a", JValue.num 1)] "b" = JValue.null := rfl
example : jset (JValue.obj [("p", JValue.str "x")]) "q" (JValue.bool true)
    = JValue.obj [("p", JValue.str "x"), ("q", JValue.bool true)] := rfl

/-! ## Numeric string parsing (model of Python `float(...)`) -/

/-- The natural number denoted by a list of decimal digit characters. -/
def digitsToNat (cs : List Char) : Nat :=
  cs.foldl (fun a c => a * 10 + (c.toNat - 48)) 0

/-- Whether a list of characters is a non-empty run of decimal digits. -/
def isDigits (cs : List Char) : Bool :=
  !cs.isEmpty && cs.all Char.isDigit

/-- Modelled from the Python standard library: the unsigned part of
`float(<string>)` for a plain decimal literal `digits`, `digits.digits`,
`digits.` or `.digits`.  Exotic accepted forms (exponents, `inf`, `nan`,
digit-group underscores) are not modelled; no claim under study feeds
them, and returning `none` for them only ever makes a value count as
"unparseable", the same bucket the claims place genuinely malformed
strings in. -/
def parseUnsigned (cs : List Char) : Option Rat :=
  match cs.splitOn '.' with
  | [intPart] =>
      if isDigits intPart then some (digitsToNat intPart) else none
  | [intPart, fracPart] =>
      if (isDigits intPart || intPart.isEmpty)
          && (isDigits fracPart || fracPart.isEmpty)
          && !(intPart.isEmpty && fracPart.isEmpty) then
        some ((digitsToNat intPart : Rat)
          + (digitsToNat fracPart : Rat) / ((10 : Rat) ^ fracPart.length))
      else none
  | _ => none

/-- Whitespace as stripped by Python's `float(<string>)`. -/
def isPySpace (c : Char) : Bool :=
  c == ' ' || c == '\t' || c == '\n' || c == '\r'

/-- Modelled from the Python standard library: `float(<string>)`,
returning `none` where Python raises `ValueError`.  Leading/trailing
whitespace is stripped and one optional sign is accepted. -/
def parseFloatStr (s : String) : Option Rat :=
  match (s.data.dropWhile isPySpace).reverse.dropWhile isPySpace |>.reverse with
  | '-' :: rest => (parseUnsigned rest).map Neg.neg
  | '+' :: rest => parseUnsigned rest
  | t => parseUnsigned t

/-- Modelled from the Python standard library: `float(value)` on an
arbitrary value, returning `Except.error` where Python raises
(`TypeError` for non-numeric non-string values, `ValueError` for
unparseable strings).  Python booleans are integers (`float(True) = 1.0`). -/
def pyFloat (v : JValue) : Except String Rat :=
  match v with
  | .num q => .ok q
  | .bool b => .ok (if b then 1 else 0)
  | .str s =>
      match parseFloatStr s with
      | some q => .ok q
      | none => .error "ValueError: could not convert string to float"
  | _ => .error "TypeError: float() argument"

example : (parseFloatStr "37.8651").isSome = true := by decide
example : (parseFloatStr "-119.5383").isSome = true := by decide
example : parseFloatStr "abc" = none := by decide
example : parseFloatStr "" = none := by decide

/-! ## Canonical errors and Python exceptions -/

/-- `NPSAPIError` from `src/api/client.py` (the class itself is declared
outside the sources under study; its shape — message, `error_type` kind,
optional HTTP status, details dict — is fixed by every construction site in
`src/api/external_client.py`, `src/api/weather.py` and
`src/api/air_quality.py`, and by the spec's `CanonicalError`
`{kind, message, status_code?, details}`).  The message is a `JValue`
because `_handle_response` copies a JSON field into it verbatim. -/
structure NPSAPIError where
  message : JValue
  error_type : String
  status_code : Option Nat := none
  details : Params := []

/-- A Python exception as seen by a `try`/`except` in the handlers: either
an `NPSAPIError` (caught by `except NPSAPIError`) or any other exception
(caught only by `except Exception`). -/
inductive PyExc where
  | api : NPSAPIError → PyExc
  | generic : String → PyExc

/-- Modelled from the Python standard library:
`datetime.fromtimestamp(t, timezone.utc).isoformat()`, treated as an
opaque injective total conversion from epoch seconds to a string.  No
claim under study inspects the produced text, only whether the timestamp
slot is null or a string. -/
def pyUtcIso (t : Rat) : String :=
  "utc-iso-of-epoch:" ++ toString t.num ++ "/" ++ toString t.den

/-! ## `ExternalAPIClient` (`src/api/external_client.py`)

`ExternalAPIClient.get` issues one HTTP GET and classifies every failure
into a canonical kind.  The outcome of the raw HTTP exchange (the part
performed by `httpx` and the network) is modelled by `HttpOutcome`; the
response body arrives either as parsed JSON (`jsonBody`, carrying also the
raw text) or as text that is not parseable JSON (`rawBody`). -/

/-- A response body together with its JSON-parse status: `response.json()`
succeeds exactly on `jsonBody`. -/
inductive BodyContent where
  | jsonBody : JValue → String → BodyContent
  | rawBody : String → BodyContent

/-- The outcome of the raw HTTP exchange inside `ExternalAPIClient.get`:
a completed response with a status code and body, a deadline exceeded
(`httpx.TimeoutException`), a connection/DNS/TLS failure
(`httpx.NetworkError`), or any other exception. -/
inductive HttpOutcome where
  | response : Nat → BodyContent → HttpOutcome
  | timeout : HttpOutcome
  | networkError : String → HttpOutcome
  | otherFailure : String → HttpOutcome

/-- The raw text of a body. -/
def BodyContent.text : BodyContent → String
  | .jsonBody _ t => t
  | .rawBody t => t

/-- Whether a status code is a success for `httpx`'s `raise_for_status`
(2xx; with `follow_redirects=True` the final response's status is seen). -/
def is2xx (status : Nat) : Bool :=
  200 ≤ status && status ≤ 299

/-- `ExternalAPIClient._handle_response`: raise `http_error` on a non-2xx
status (merging a JSON-dict body, message included, into the details),
return the parsed JSON on a 2xx, and raise `parse_error` on a 2xx body
that is not parseable JSON. -/
def handle_response (status : Nat) (body : BodyContent) (url : String) :
    Except NPSAPIError JValue :=
  if is2xx status then
    match body with
    | .jsonBody v _ => .ok v
    | .rawBody text =>
        .error {
          message := .str "Failed to parse API response",
          error_type := "parse_error",
          status_code := some status,
          details := [("error", .str "JSONDecodeError"),
                      ("response_text", .str (text.take 500))] }
  else
    let baseMsg : JValue := .str ("HTTP " ++ toString status ++ " error")
    let details0 : Params := [("url", .str url)]
    match body with
    | .jsonBody (.obj fs) _ =>
        .error {
          message := (jlookup fs "message").getD baseMsg,
          error_type := "http_error",
          status_code := some status,
          details := pyUpdate details0 fs }
    | .jsonBody _ _ =>
        .error {
          message := baseMsg,
          error_type := "http_error",
          status_code := some status,
          details := details0 }
    | .rawBody text =>
        .error {
          message := baseMsg,
          error_type := "http_error",
          status_code := some status,
          details := details0 ++ [("response_text", .str (text.take 500))] }

/-- `ExternalAPIClient.get`: classify the outcome of one HTTP GET.
`httpx.TimeoutException` → `timeout_error`; `httpx.NetworkError` →
`network_error`; a completed response goes through `_handle_response`
(whose `NPSAPIError` is re-raised as-is); any other exception →
`unknown_error`. -/
def client_get (outcome : HttpOutcome) (url : String) :
    Except NPSAPIError JValue :=
  match outcome with
  | .response status body => handle_response status body url
  | .timeout =>
      .error {
        message := .str "Request timed out",
        error_type := "timeout_error",
        details := [("url", .str url)] }
  | .networkError m =>
      .error {
        message := .str "Network error occurred",
        error_type := "network_error",
        details := [("url", .str url), ("error", .str m)] }
  | .otherFailure m =>
      .error {
        message := .str "Unexpected error occurred",
        error_type := "unknown_error",
        details := [("error", .str ("Unexpected error: " ++ m)),
                    ("url", .str url)] }

/-! ## `RetryableTransport` (spec §4.2)

Modelled from the spec: the repository imports `RetryableHTTPClient` and
`RetryConfig` from `src/api/retry.py`, a module that is not among the
sources under study (only its importer `src/api/external_client.py` is).
The model below follows the spec's words: bounded exponential backoff,
retrying only the transient classifications, raising the final attempt's
classification.  Each attempt's classified outcome is supplied by an
oracle indexed by the 0-based attempt number. -/

/-- Modelled from the spec: the retry configuration of `src/api/retry.py`
(`max_retries`, `initial_delay`, `exponential_base`, `max_delay`). -/
structure RetryConfig where
  max_retries : Nat
  initial_delay : Rat
  max_delay : Rat
  exponential_base : Rat

/-- Modelled from the spec: the transient classifications — only
`timeout_error` and `network_error` are retried. -/
def isTransient (kind : String) : Bool :=
  kind == "timeout_error" || kind == "network_error"

/-- Modelled from the spec: the deterministic backoff delay before retry
`i`, `min(initial_delay * exponential_base ^ i, max_delay)`. -/
def retryDelay (cfg : RetryConfig) (i : Nat) : Rat :=
  min (cfg.initial_delay * cfg.exponential_base ^ i) cfg.max_delay

/-- Modelled from the spec: the retry loop, starting at attempt `i` with
`remaining` retries still allowed.  Returns the final outcome and the
1-based index just past the last attempt performed (= the number of
attempts when started at `i = 0`). -/
def retrySendAux (attempt : Nat → Except NPSAPIError JValue) :
    Nat → Nat → Except NPSAPIError JValue × Nat
  | i, remaining =>
    match attempt i, remaining with
    | .ok v, _ => (.ok v, i + 1)
    | .error e, 0 => (.error e, i + 1)
    | .error e, r + 1 =>
        if isTransient e.error_type then retrySendAux attempt (i + 1) r
        else (.error e, i + 1)

/-- Modelled from the spec: one send through `RetryableHTTPClient`:
attempt the call; on a transient failure, while the ceiling is not
reached, sleep the backoff delay and retry; otherwise raise the last
classified error.  Returns the outcome and the number of attempts
performed. -/
def retrySend (cfg : RetryConfig) (attempt : Nat → Except NPSAPIError JValue) :
    Except NPSAPIError JValue × Nat :=
  retrySendAux attempt 0 cfg.max_retries

/-! ## Weather provider clients (`src/api/weather.py`) -/

/-- A provider network oracle: the classified result of issuing one GET
with the given query parameters (the composition of the HTTP exchange
with `ExternalAPIClient.get`'s classification, `client_get`). -/
abbrev Oracle := Params → Except NPSAPIError JValue

/-- A trace of provider calls actually issued: call label and the query
parameters sent. -/
abbrev Trace := List (String × Params)

/-- The `missing_api_key` error raised by
`WeatherClient.get_openweather_current` when no OpenWeather key is
configured. -/
def openweatherKeyError : NPSAPIError :=
  { message := .str "OpenWeather API key not configured",
    error_type := "missing_api_key",
    details := [("provider", .str "OpenWeather")] }

/-- The query parameters `WeatherClient.get_openweather_current` sends:
`lat`, `lon`, `appid`, `units`, and `lang` when a truthy language is
given. -/
def openweather_params (key : String) (lat lon : Rat) (units : String)
    (language : Option String) : Params :=
  [("lat", .num lat), ("lon", .num lon), ("appid", .str key),
   ("units", .str units)]
  ++ (match language with
      | some l => if l.isEmpty then [] else [("lang", .str l)]
      | none => [])

/-- `WeatherClient.get_openweather_current`: raise `missing_api_key` when
no key is configured (no network call), otherwise GET `/weather` on the
OpenWeather client. -/
def get_openweather_current (key : Option String) (net : Oracle)
    (lat lon : Rat) (units : String) (language : Option String) :
    Except NPSAPIError JValue × Trace :=
  if strFalsy key then (.error openweatherKeyError, [])
  else
    let ps := openweather_params (key.getD "") lat lon units language
    (net ps, [("openweather_weather", ps)])

/-- The comma-joined field list `WeatherClient.get_open_meteo_current`
requests. -/
def open_meteo_current_fields : String :=
  "temperature_2m,relative_humidity_2m,apparent_temperature,wind_speed_10m,wind_direction_10m,weather_code"

/-- The query parameters `WeatherClient.get_open_meteo_current` sends:
`latitude`, `longitude`, `current`, plus `temperature_unit=fahrenheit`
and `wind_speed_unit=mph` when and only when `units == "imperial"`. -/
def open_meteo_params (lat lon : Rat) (units : String) : Params :=
  [("latitude", .num lat), ("longitude", .num lon),
   ("current", .str open_meteo_current_fields)]
  ++ (if units == "imperial" then
        [("temperature_unit", .str "fahrenheit"),
         ("wind_speed_unit", .str "mph")]
      else [])

/-- `WeatherClient.get_open_meteo_current`: GET `/forecast` on the
Open-Meteo client (no credential, retry disabled for this client). -/
def get_open_meteo_current (net : Oracle) (lat lon : Rat) (units : String) :
    Except NPSAPIError JValue × Trace :=
  let ps := open_meteo_params lat lon units
  (net ps, [("open_meteo_forecast", ps)])

/-! ## Weather normalization and fallback (`src/handlers/get_weather.py`) -/

/-- `_openweather_units`: the unit labels implied by the requested unit
system for the OpenWeather provider. -/
def openweather_units (units : String) : JValue :=
  if units == "imperial" then
    .obj [("temperature", .str "F"), ("windSpeed", .str "mph")]
  else
    .obj [("temperature", .str "C"), ("windSpeed", .str "m/s")]

/-- `_openweather_timestamp`: `None` for a falsy epoch value, otherwise
the UTC ISO-8601 rendering of the epoch; raises on a truthy non-numeric
value (Python `datetime.fromtimestamp`). -/
def openweather_timestamp (v : JValue) : Except String JValue :=
  if !jTruthy v then .ok .null
  else match v with
    | .num t => .ok (.str (pyUtcIso t))
    | .bool b => .ok (.str (pyUtcIso (if b then 1 else 0)))
    | _ => .error "TypeError: fromtimestamp argument"

/-- The `weather` element selection of `_normalize_openweather`:
`(data.get("weather") or [{}])[0]` — a falsy value (absent, null, empty
list) yields `{}`, a truthy list yields its first element.  A truthy
value that is not a list of dicts makes Python raise somewhere between
the indexing and the later attribute accesses; the model collapses all
those raising paths into one `Except.error`. -/
def openweather_weather_elem (wv : JValue) : Except String JValue :=
  if jTruthy wv then
    match wv with
    | .arr (x :: _) => Except.ok x
    | _ => Except.error "TypeError: weather field is not a list of dicts"
  else Except.ok (JValue.obj [])

/-- `_normalize_openweather`: map an OpenWeather payload into the
canonical weather shape.  `main` and `wind` default to `{}` when
absent. -/
def normalize_openweather (data : JValue) (units : String) (lat lon : Rat) :
    Except String JValue := do
  let main ← pyGetDE data "main" (.obj [])
  let weather ← openweather_weather_elem (← pyGetE data "weather")
  let wind ← pyGetDE data "wind" (.obj [])
  let temp ← pyGetE main "temp"
  let feelsLike ← pyGetE main "feels_like"
  let humidity ← pyGetE main "humidity"
  let pressure ← pyGetE main "pressure"
  let windSpeed ← pyGetE wind "speed"
  let windDirection ← pyGetE wind "deg"
  let condition ← pyGetE weather "main"
  let description ← pyGetE weather "description"
  let timestamp ← openweather_timestamp (← pyGetE data "dt")
  Except.ok (.obj [
    ("location", .obj [("latitude", .num lat), ("longitude", .num lon)]),
    ("units", openweather_units units),
    ("current", .obj [
      ("temperature", temp),
      ("feelsLike", feelsLike),
      ("humidity", humidity),
      ("pressure", pressure),
      ("windSpeed", windSpeed),
      ("windDirection", windDirection),
      ("condition", condition),
      ("description", description),
      ("timestamp", timestamp)]),
    ("source", .obj [("provider", .str "OpenWeather"),
                     ("fallback", .bool false)])])

/-- `_normalize_open_meteo`: map an Open-Meteo payload into the canonical
weather shape; unit labels come from the payload's `current_units`,
defaulting to `"C"` and `"m/s"` when absent. -/
def normalize_open_meteo (data : JValue) (units : String) (lat lon : Rat) :
    Except String JValue := do
  let current ← pyGetDE data "current" (.obj [])
  let units_map ← pyGetDE data "current_units" (.obj [])
  let tempUnit ← pyGetDE units_map "temperature_2m" (.str "C")
  let windUnit ← pyGetDE units_map "wind_speed_10m" (.str "m/s")
  let temp ← pyGetE current "temperature_2m"
  let feelsLike ← pyGetE current "apparent_temperature"
  let humidity ← pyGetE current "relative_humidity_2m"
  let windSpeed ← pyGetE current "wind_speed_10m"
  let windDirection ← pyGetE current "wind_direction_10m"
  let conditionCode ← pyGetE current "weather_code"
  let timestamp ← pyGetE current "time"
  Except.ok (.obj [
    ("location", .obj [("latitude", .num lat), ("longitude", .num lon)]),
    ("units", .obj [("temperature", tempUnit), ("windSpeed", windUnit)]),
    ("current", .obj [
      ("temperature", temp),
      ("feelsLike", feelsLike),
      ("humidity", humidity),
      ("windSpeed", windSpeed),
      ("windDirection", windDirection),
      ("conditionCode", conditionCode),
      ("timestamp", timestamp)]),
    ("source", .obj [("provider", .str "Open-Meteo"),
                     ("fallback", .bool true),
                     ("units", .str units)])])

/-- `build_weather_response`: try OpenWeather; on any `NPSAPIError` from
it fall back to Open-Meteo, stamping `fallbackReason` into the fallback
result's `source`; when Open-Meteo also fails, its error propagates
unchanged.  A normalization exception (only possible on a payload outside
the well-formed set) is a generic Python exception, not an
`NPSAPIError`. -/
def build_weather_response (owKey : Option String) (owNet omNet : Oracle)
    (lat lon : Rat) (units : String) (language : Option String) :
    Except PyExc JValue × Trace :=
  let r1 := get_openweather_current owKey owNet lat lon units language
  match r1.1 with
  | .ok data =>
      match normalize_openweather data units lat lon with
      | .ok doc => (.ok doc, r1.2)
      | .error m => (.error (.generic m), r1.2)
  | .error _ =>
      let r2 := get_open_meteo_current omNet lat lon units
      match r2.1 with
      | .error e => (.error (.api e), r1.2 ++ r2.2)
      | .ok data =>
          match normalize_open_meteo data units lat lon with
          | .ok doc =>
              (.ok (jset doc "source"
                (jset (jget doc "source") "fallbackReason"
                  (.str "OpenWeather unavailable"))), r1.2 ++ r2.2)
          | .error m => (.error (.generic m), r1.2 ++ r2.2)

/-! ## Air quality (`src/api/air_quality.py`,
`src/handlers/get_air_quality.py`) -/

/-- The `missing_api_key` error raised by
`AirQualityClient.get_nearest_city` when no AirVisual key is
configured. -/
def airvisualKeyError : NPSAPIError :=
  { message := .str "AirVisual API key not configured",
    error_type := "missing_api_key",
    details := [("provider", .str "AirVisual")] }

/-- `AirQualityClient.get_nearest_city`: raise `missing_api_key` when no
key is configured (no network call), otherwise GET `/nearest_city` with
`lat`, `lon`, `key`. -/
def get_nearest_city (key : Option String) (net : Oracle) (lat lon : Rat) :
    Except NPSAPIError JValue × Trace :=
  if strFalsy key then (.error airvisualKeyError, [])
  else
    let ps : Params := [("lat", .num lat), ("lon", .num lon),
                        ("key", .str (key.getD ""))]
    (net ps, [("airvisual_nearest_city", ps)])

/-- The normalization part of `build_air_quality_response`: map the
`data` member of an AirVisual payload into the canonical air-quality
shape. -/
def normalize_airvisual (payload : JValue) (lat lon : Rat) :
    Except String JValue := do
  let city ← pyGetE payload "city"
  let state ← pyGetE payload "state"
  let country ← pyGetE payload "country"
  let current ← pyGetDE payload "current" (.obj [])
  let pollution ← pyGetDE current "pollution" (.obj [])
  let weather ← pyGetDE current "weather" (.obj [])
  let pTs ← pyGetE pollution "ts"
  let aqius ← pyGetE pollution "aqius"
  let mainus ← pyGetE pollution "mainus"
  let aqicn ← pyGetE pollution "aqicn"
  let maincn ← pyGetE pollution "maincn"
  let wTs ← pyGetE weather "ts"
  let temperature ← pyGetE weather "tp"
  let pressure ← pyGetE weather "pr"
  let humidity ← pyGetE weather "hu"
  let windSpeed ← pyGetE weather "ws"
  let windDirection ← pyGetE weather "wd"
  let icon ← pyGetE weather "ic"
  Except.ok (.obj [
    ("location", .obj [
      ("city", city), ("state", state), ("country", country),
      ("coordinates", .obj [("latitude", .num lat),
                            ("longitude", .num lon)])]),
    ("current", .obj [
      ("pollution", .obj [
        ("timestamp", pTs), ("aqius", aqius), ("mainus", mainus),
        ("aqicn", aqicn), ("maincn", maincn)]),
      ("weather", .obj [
        ("timestamp", wTs), ("temperature", temperature),
        ("pressure", pressure), ("humidity", humidity),
        ("windSpeed", windSpeed), ("windDirection", windDirection),
        ("icon", icon)])]),
    ("source", .obj [("provider", .str "AirVisual")])])

/-- The payload extraction of `build_air_quality_response`:
`data.get("data", {}) if isinstance(data, dict) else {}`. -/
def airvisual_payload (data : JValue) : JValue :=
  match data with
  | .obj fs => pyGetD fs "data" (.obj [])
  | _ => .obj []

/-- `build_air_quality_response`: fetch the nearest-city reading (the
`NPSAPIError` of a missing key or a failed call propagates) and
normalize it; a non-dict response yields an empty payload. -/
def build_air_quality_response (key : Option String) (net : Oracle)
    (lat lon : Rat) : Except PyExc JValue × Trace :=
  let r := get_nearest_city key net lat lon
  match r.1 with
  | .error e => (.error (.api e), r.2)
  | .ok data =>
      match normalize_airvisual (airvisual_payload data) lat lon with
      | .ok doc => (.ok doc, r.2)
      | .error m => (.error (.generic m), r.2)

/-! ## Geocoding handlers (`src/handlers/geocode_location.py`,
`src/handlers/reverse_geocode.py`) -/

/-- One entry of `_format_geocode_results`: a Nominatim hit is mapped to
the canonical geocode shape.  `latitude`/`longitude` are
`float(item["lat"]) if item.get("lat") else None` — the truthiness guard,
not a presence test. -/
def format_geocode_item (item : Params) : Except String JValue := do
  let nameV := pyGet item "name"
  let latV := pyGet item "lat"
  let lonV := pyGet item "lon"
  let latitude ←
    if jTruthy latV then (fun q => JValue.num q) <$> pyFloat latV
    else pure JValue.null
  let longitude ←
    if jTruthy lonV then (fun q => JValue.num q) <$> pyFloat lonV
    else pure JValue.null
  Except.ok (.obj [
    ("name", if jTruthy nameV then nameV else pyGet item "display_name"),
    ("displayName", pyGet item "display_name"),
    ("latitude", latitude),
    ("longitude", longitude),
    ("category", pyGet item "category"),
    ("type", pyGet item "type"),
    ("importance", pyGet item "importance"),
    ("boundingBox", pyGet item "boundingbox"),
    ("address", pyGetD item "address" (.obj []))])

/-- `_format_geocode_results` over a list of hits (each hit is a dict;
`NominatimClient.search` returns the raw JSON array). -/
def format_geocode_results (results : List Params) :
    Except String (List JValue) :=
  results.mapM format_geocode_item

/-- The tail of `reverse_geocode` after a successful provider call:
`not result` (an empty dict) yields the `not_found` document, otherwise
the canonical reverse-geocode shape with the same
`float(result["lat"]) if result.get("lat") else None` coordinate
treatment. -/
def reverse_geocode_response (result : Params) : Except String JValue :=
  if result.isEmpty then
    .ok (.obj [
      ("error", .str "not_found"),
      ("message",
       .str "No reverse geocode result found for the coordinates provided.")])
  else do
    let latV := pyGet result "lat"
    let lonV := pyGet result "lon"
    let latitude ←
      if jTruthy latV then (fun q => JValue.num q) <$> pyFloat latV
      else pure JValue.null
    let longitude ←
      if jTruthy lonV then (fun q => JValue.num q) <$> pyFloat lonV
      else pure JValue.null
    Except.ok (.obj [
      ("placeId", pyGet result "place_id"),
      ("displayName", pyGet result "display_name"),
      ("latitude", latitude),
      ("longitude", longitude),
      ("category", pyGet result "category"),
      ("type", pyGet result "type"),
      ("address", pyGetD result "address" (.obj [])),
      ("source", .obj [("provider", .str "Nominatim")])])

/-! ## Composite park context (`src/handlers/get_park_context.py`) -/

/-- Modelled from the spec: `ErrorResponse(...).model_dump()` from
`src/models/errors.py`, a module not among the sources under study.  The
spec fixes the dumped shape as the canonical error document
`{error, message, details}`, discriminable by its `error` field. -/
def errorResponseDump (error : String) (message : JValue)
    (details : Params) : JValue :=
  .obj [("error", .str error), ("message", message),
        ("details", .obj details)]

/-- Modelled from the spec: `handle_generic_error` from
`src/utils/error_handler.py`, a module not among the sources under study.
Per the spec, every failure reaching the boundary is a structured
document, never an unhandled fault; the exact fields beyond `error` are
not relied on by any claim. -/
def handle_generic_error (msg : String) (tool : String) : JValue :=
  .obj [("error", .str "unknown_error"), ("message", .str msg),
        ("details", .obj [("tool", .str tool)])]

/-- `_parse_coordinate`: `float(value) if value is not None else None`,
with `TypeError`/`ValueError` caught and turned into `None`. -/
def parse_coordinate (v : JValue) : Option Rat :=
  match v with
  | .null => none
  | w => match pyFloat w with
         | .ok q => some q
         | .error _ => none

/-- `_build_error` of `get_park_context`: the structured `context_error`
document. -/
def build_context_error (message : String) (parkCode : String) : JValue :=
  errorResponseDump "context_error" (.str message)
    [("parkCode", .str parkCode)]

/-- The `location` value read by `get_park_context`:
`park_details.get("location", {}) if isinstance(park_details, dict)
else {}`. -/
def parkLocationValue (pd : JValue) : JValue :=
  match pd with
  | .obj fs => pyGetD fs "location" (.obj [])
  | _ => .obj []

/-- The error-document test of `get_park_context`:
`isinstance(park_details, dict) and park_details.get("error")`. -/
def parkErrorish (pd : JValue) : Bool :=
  match pd with
  | .obj fs => jTruthy (pyGet fs "error")
  | _ => false

/-- `get_park_context`: run the mandatory park-details lookup (an
`NPSAPIError` from it is re-raised; an error document from it is returned
as-is); parse the join coordinates, returning a `context_error` document
when either is absent or unparseable; then run the weather lookup (its
`NPSAPIError` after fallback exhaustion is re-raised by the outer
`except NPSAPIError: raise`) and the air-quality lookup (whose
`NPSAPIError` is caught and embedded inline as an error document); a
generic Python exception anywhere inside makes the outer
`except Exception` return the `handle_generic_error` document.  The
mandatory lookup's outcome is an oracle value (`get_park_details` lives
outside the sources under study); the provider oracles and the trace are
as in `build_weather_response`/`build_air_quality_response`. -/
def get_park_context (parkRes : Except NPSAPIError JValue)
    (owKey : Option String) (owNet omNet : Oracle)
    (aqKey : Option String) (aqNet : Oracle)
    (parkCode : String) (unitsOpt : Option String) (now : String) :
    Except NPSAPIError JValue × Trace :=
  let t0 : Trace := [("get_park_details", [("parkCode", .str parkCode)])]
  match parkRes with
  | .error e => (.error e, t0)
  | .ok pd =>
      if parkErrorish pd then (.ok pd, t0)
      else
        match parkLocationValue pd with
        | .obj lfs =>
            match parse_coordinate (pyGet lfs "latitude"),
                  parse_coordinate (pyGet lfs "longitude") with
            | some lat, some lon =>
                let w := build_weather_response owKey owNet omNet lat lon
                  (pyOrStr unitsOpt "metric") none
                (match w.1 with
                 | .error (.api e) => (.error e, t0 ++ w.2)
                 | .error (.generic m) =>
                     (.ok (handle_generic_error m "getParkContext"), t0 ++ w.2)
                 | .ok weather =>
                     let a := build_air_quality_response aqKey aqNet lat lon
                     match a.1 with
                     | .error (.generic m) =>
                         (.ok (handle_generic_error m "getParkContext"),
                          t0 ++ w.2 ++ a.2)
                     | .error (.api e) =>
                         (.ok (.obj [
                            ("park", pd),
                            ("location", .obj [("latitude", .num lat),
                                               ("longitude", .num lon)]),
                            ("weather", weather),
                            ("airQuality",
                             errorResponseDump e.error_type e.message
                               e.details),
                            ("contextGeneratedAt", .str now)]),
                          t0 ++ w.2 ++ a.2)
                     | .ok airQuality =>
                         (.ok (.obj [
                            ("park", pd),
                            ("location", .obj [("latitude", .num lat),
                                               ("longitude", .num lon)]),
                            ("weather", weather),
                            ("airQuality", airQuality),
                            ("contextGeneratedAt", .str now)]),
                          t0 ++ w.2 ++ a.2))
            | _, _ =>
                (.ok (build_context_error
                  "Park location coordinates are unavailable for this park."
                  parkCode), t0)
        | _ =>
            (.ok (handle_generic_error
              "AttributeError: location value has no attribute get"
              "getParkContext"), t0)

/-! ## Well-formed provider payloads

The spec's normalization adapters are total "on any well-formed provider
payload".  The predicates below carve out exactly the payloads on which
the Python adapters cannot raise: every container the adapter unconditionally
treats as a dict (or, for OpenWeather's `weather`, a list of dicts) is
either absent, suitably falsy, or of that container type. -/

/-- Key `k` of a dict is absent or bound to a dict. -/
def keyObjOrAbsent (fs : Params) (k : String) : Bool :=
  match jlookup fs k with
  | none => true
  | some (.obj _) => true
  | some _ => false

/-- The `weather` field is absent, falsy, or a list whose first element is
a dict (`(data.get("weather") or [{}])[0]` then `.get`). -/
def weatherListOk (fs : Params) : Bool :=
  match jlookup fs "weather" with
  | none => true
  | some v =>
      if jTruthy v then
        match v with
        | .arr (.obj _ :: _) => true
        | _ => false
      else true

/-- The `dt` field is absent, falsy, or numeric
(`datetime.fromtimestamp` accepts ints/floats; Python bools are ints). -/
def dtOk (fs : Params) : Bool :=
  match jlookup fs "dt" with
  | none => true
  | some v =>
      if jTruthy v then
        match v with
        | .num _ => true
        | .bool _ => true
        | _ => false
      else true

/-- Well-formed OpenWeather payload for `_normalize_openweather`. -/
def wfOpenweather (data : JValue) : Bool :=
  match data with
  | .obj fs =>
      keyObjOrAbsent fs "main" && keyObjOrAbsent fs "wind"
        && weatherListOk fs && dtOk fs
  | _ => false

/-- Well-formed Open-Meteo payload for `_normalize_open_meteo`. -/
def wfOpenMeteo (data : JValue) : Bool :=
  match data with
  | .obj fs => keyObjOrAbsent fs "current" && keyObjOrAbsent fs "current_units"
  | _ => false

/-- Well-formed AirVisual `data` member for the normalization part of
`build_air_quality_response`. -/
def wfAirvisualPayload (payload : JValue) : Bool :=
  match payload with
  | .obj pfs =>
      match jlookup pfs "current" with
      | none => true
      | some (.obj cfs) =>
          keyObjOrAbsent cfs "pollution" && keyObjOrAbsent cfs "weather"
      | some _ => false
  | _ => false

/-- Well-formed AirVisual response for `build_air_quality_response` (a
non-dict response yields the empty payload, which is well-formed). -/
def wfAirvisual (data : JValue) : Bool :=
  match data with
  | .obj fs =>
      match jlookup fs "data" with
      | none => true
      | some p => wfAirvisualPayload p
  | _ => true

/-! ## Helper lemmas -/

theorem pyGetD_obj_of_keyObjOrAbsent {fs : Params} {k : String}
    (h : keyObjOrAbsent fs k = true) (d : Params) :
    ∃ gs, pyGetD fs k (.obj d) = .obj gs := by
  unfold keyObjOrAbsent at h
  unfold pyGetD
  match hj : jlookup fs k with
  | none => exact ⟨d, rfl⟩
  | some v =>
      rw [hj] at h
      match v, h with
      | .obj gs, _ => exact ⟨gs, rfl⟩

theorem pyGetDE_obj_of_keyObjOrAbsent {fs : Params} {k : String}
    (h : keyObjOrAbsent fs k = true) (d : Params) :
    ∃ gs, pyGetDE (.obj fs) k (.obj d) = .ok (.obj gs) := by
  obtain ⟨gs, hgs⟩ := pyGetD_obj_of_keyObjOrAbsent h d
  exact ⟨gs, by simp [pyGetDE, hgs]⟩

theorem weather_elem_ok {fs : Params} (h : weatherListOk fs = true) :
    ∃ W, openweather_weather_elem (pyGet fs "weather")
      = Except.ok (JValue.obj W) := by
  rw [weatherListOk] at h
  match hjw : jlookup fs "weather" with
  | none =>
      have hpv : pyGet fs "weather" = .null := by rw [pyGet, hjw]; rfl
      exact ⟨[], by rw [hpv]; rfl⟩
  | some v =>
      have hpv : pyGet fs "weather" = v := by rw [pyGet, hjw]; rfl
      rw [hjw] at h
      simp only at h
      rw [hpv]
      cases v with
      | arr xs =>
          cases xs with
          | nil => exact ⟨[], by simp [openweather_weather_elem, jTruthy]⟩
          | cons y ys =>
              cases y with
              | obj W => exact ⟨W, by simp [openweather_weather_elem, jTruthy]⟩
              | null => simp [jTruthy] at h
              | bool b => simp [jTruthy] at h
              | num q => simp [jTruthy] at h
              | str s => simp [jTruthy] at h
              | arr zs => simp [jTruthy] at h
      | null => exact ⟨[], by simp [openweather_weather_elem, jTruthy]⟩
      | bool b =>
          cases b with
          | false => exact ⟨[], by simp [openweather_weather_elem, jTruthy]⟩
          | true => simp [jTruthy] at h
      | num q =>
          by_cases hq : q = 0
          · exact ⟨[], by simp [openweather_weather_elem, jTruthy, hq]⟩
          · simp [jTruthy, bne_iff_ne, hq] at h
      | str s =>
          by_cases hs : s.isEmpty = true
          · exact ⟨[], by simp [openweather_weather_elem, jTruthy, hs]⟩
          · simp [jTruthy, hs] at h
      | obj gs =>
          cases gs with
          | nil => exact ⟨[], by simp [openweather_weather_elem, jTruthy]⟩
          | cons p ps => simp [jTruthy] at h

theorem timestamp_ok {fs : Params} (h : dtOk fs = true) :
    ∃ tv, openweather_timestamp (pyGet fs "dt") = .ok tv := by
  rw [dtOk] at h
  match hjw : jlookup fs "dt" with
  | none =>
      have hpv : pyGet fs "dt" = .null := by rw [pyGet, hjw]; rfl
      exact ⟨.null, by rw [hpv]; rfl⟩
  | some v =>
      have hpv : pyGet fs "dt" = v := by rw [pyGet, hjw]; rfl
      rw [hjw] at h
      simp only at h
      rw [hpv]
      cases v with
      | num t =>
          by_cases ht : t = 0
          · exact ⟨.null, by simp [openweather_timestamp, jTruthy, ht]⟩
          · exact ⟨.str (pyUtcIso t),
              by simp [openweather_timestamp, jTruthy, bne_iff_ne, ht]⟩
      | bool b =>
          cases b with
          | false => exact ⟨.null, by simp [openweather_timestamp, jTruthy]⟩
          | true =>
              exact ⟨.str (pyUtcIso 1), by simp [openweather_timestamp, jTruthy]⟩
      | null => exact ⟨.null, by simp [openweather_timestamp, jTruthy]⟩
      | str s =>
          by_cases hs : s.isEmpty = true
          · exact ⟨.null, by simp [openweather_timestamp, jTruthy, hs]⟩
          · simp [jTruthy, hs] at h
      | arr xs =>
          cases xs with
          | nil => exact ⟨.null, by simp [openweather_timestamp, jTruthy]⟩
          | cons y ys => simp [jTruthy] at h
      | obj gs =>
          cases gs with
          | nil => exact ⟨.null, by simp [openweather_timestamp, jTruthy]⟩
          | cons p ps => simp [jTruthy] at h

theorem normalize_openweather_shape (data : JValue) (u : String)
    (lat lon : Rat) (h : wfOpenweather data = true) :
    ∃ cur, normalize_openweather data u lat lon = .ok (.obj [
        ("location", .obj [("latitude", .num lat), ("longitude", .num lon)]),
        ("units", openweather_units u),
        ("current", .obj cur),
        ("source", .obj [("provider", .str "OpenWeather"),
                         ("fallback", .bool false)])])
      ∧ cur.map Prod.fst = ["temperature", "feelsLike", "humidity",
          "pressure", "windSpeed", "windDirection", "condition",
          "description", "timestamp"] := by
  cases data with
  | null => simp [wfOpenweather] at h
  | bool b => simp [wfOpenweather] at h
  | num q => simp [wfOpenweather] at h
  | str s => simp [wfOpenweather] at h
  | arr xs => simp [wfOpenweather] at h
  | obj fs =>
      rw [wfOpenweather] at h
      simp only [Bool.and_eq_true] at h
      obtain ⟨⟨⟨hmain, hwind⟩, hweather⟩, hdt⟩ := h
      obtain ⟨M, hM⟩ := pyGetD_obj_of_keyObjOrAbsent hmain []
      obtain ⟨D, hD⟩ := pyGetD_obj_of_keyObjOrAbsent hwind []
      obtain ⟨W, hW⟩ := weather_elem_ok hweather
      obtain ⟨tv, htv⟩ := timestamp_ok hdt
      refine ⟨[("temperature", pyGet M "temp"),
               ("feelsLike", pyGet M "feels_like"),
               ("humidity", pyGet M "humidity"),
               ("pressure", pyGet M "pressure"),
               ("windSpeed", pyGet D "speed"),
               ("windDirection", pyGet D "deg"),
               ("condition", pyGet W "main"),
               ("description", pyGet W "description"),
               ("timestamp", tv)], ?_, rfl⟩
      simp only [normalize_openweather, Bind.bind, Except.bind, pyGetDE,
        pyGetE, hM, hD, hW, htv]

theorem normalize_open_meteo_shape (data : JValue) (u : String)
    (lat lon : Rat) (h : wfOpenMeteo data = true) :
    ∃ tU wU cur, normalize_open_meteo data u lat lon = .ok (.obj [
        ("location", .obj [("latitude", .num lat), ("longitude", .num lon)]),
        ("units", .obj [("temperature", tU), ("windSpeed", wU)]),
        ("current", .obj cur),
        ("source", .obj [("provider", .str "Open-Meteo"),
                         ("fallback", .bool true),
                         ("units", .str u)])])
      ∧ cur.map Prod.fst = ["temperature", "feelsLike", "humidity",
          "windSpeed", "windDirection", "conditionCode", "timestamp"] := by
  cases data with
  | null => simp [wfOpenMeteo] at h
  | bool b => simp [wfOpenMeteo] at h
  | num q => simp [wfOpenMeteo] at h
  | str s => simp [wfOpenMeteo] at h
  | arr xs => simp [wfOpenMeteo] at h
  | obj fs =>
      rw [wfOpenMeteo] at h
      simp only [Bool.and_eq_true] at h
      obtain ⟨hcur, hum⟩ := h
      obtain ⟨C, hC⟩ := pyGetD_obj_of_keyObjOrAbsent hcur []
      obtain ⟨UM, hUM⟩ := pyGetD_obj_of_keyObjOrAbsent hum []
      refine ⟨pyGetD UM "temperature_2m" (.str "C"),
              pyGetD UM "wind_speed_10m" (.str "m/s"),
              [("temperature", pyGet C "temperature_2m"),
               ("feelsLike", pyGet C "apparent_temperature"),
               ("humidity", pyGet C "relative_humidity_2m"),
               ("windSpeed", pyGet C "wind_speed_10m"),
               ("windDirection", pyGet C "wind_direction_10m"),
               ("conditionCode", pyGet C "weather_code"),
               ("timestamp", pyGet C "time")], ?_, rfl⟩
      simp only [normalize_open_meteo, Bind.bind, Except.bind, pyGetDE,
        pyGetE, hC, hUM]

theorem normalize_airvisual_shape (payload : JValue) (lat lon : Rat)
    (h : wfAirvisualPayload payload = true) :
    ∃ loc pol wea, normalize_airvisual payload lat lon = .ok (.obj [
        ("location", .obj loc),
        ("current", .obj [("pollution", .obj pol), ("weather", .obj wea)]),
        ("source", .obj [("provider", .str "AirVisual")])])
      ∧ loc.map Prod.fst = ["city", "state", "country", "coordinates"]
      ∧ pol.map Prod.fst = ["timestamp", "aqius", "mainus", "aqicn",
          "maincn"]
      ∧ wea.map Prod.fst = ["timestamp", "temperature", "pressure",
          "humidity", "windSpeed", "windDirection", "icon"] := by
  cases payload with
  | null => simp [wfAirvisualPayload] at h
  | bool b => simp [wfAirvisualPayload] at h
  | num q => simp [wfAirvisualPayload] at h
  | str s => simp [wfAirvisualPayload] at h
  | arr xs => simp [wfAirvisualPayload] at h
  | obj pfs =>
      rw [wfAirvisualPayload] at h
      have hcur : ∃ cfs, pyGetD pfs "current" (.obj []) = .obj cfs
          ∧ keyObjOrAbsent cfs "pollution" = true
          ∧ keyObjOrAbsent cfs "weather" = true := by
        match hjc : jlookup pfs "current" with
        | none =>
            refine ⟨[], ?_, rfl, rfl⟩
            rw [pyGetD, hjc]
            rfl
        | some v =>
            rw [hjc] at h
            cases v with
            | obj cfs =>
                simp only [Bool.and_eq_true] at h
                refine ⟨cfs, ?_, h.1, h.2⟩
                rw [pyGetD, hjc]
                rfl
            | null => simp at h
            | bool b => simp at h
            | num q => simp at h
            | str s => simp at h
            | arr xs => simp at h
      obtain ⟨cfs, hC, hpol, hwea⟩ := hcur
      obtain ⟨P, hP⟩ := pyGetD_obj_of_keyObjOrAbsent hpol []
      obtain ⟨Wx, hWx⟩ := pyGetD_obj_of_keyObjOrAbsent hwea []
      refine ⟨[("city", pyGet pfs "city"), ("state", pyGet pfs "state"),
               ("country", pyGet pfs "country"),
               ("coordinates", .obj [("latitude", .num lat),
                                     ("longitude", .num lon)])],
              [("timestamp", pyGet P "ts"), ("aqius", pyGet P "aqius"),
               ("mainus", pyGet P "mainus"), ("aqicn", pyGet P "aqicn"),
               ("maincn", pyGet P "maincn")],
              [("timestamp", pyGet Wx "ts"),
               ("temperature", pyGet Wx "tp"),
               ("pressure", pyGet Wx "pr"),
               ("humidity", pyGet Wx "hu"),
               ("windSpeed", pyGet Wx "ws"),
               ("windDirection", pyGet Wx "wd"),
               ("icon", pyGet Wx "ic")], ?_, rfl, rfl, rfl⟩
      simp only [normalize_airvisual, Bind.bind, Except.bind, pyGetDE,
        pyGetE, hC, hP, hWx]

theorem jlookup_filter_other (b : Params) (k bad : String)
    (hk : (bad == k) = false) :
    jlookup (b.filter (fun q => !(bad == q.1))) k = jlookup b k := by
  induction b with
  | nil => rfl
  | cons q b ih =>
      by_cases hq : (bad == q.1) = true
      · have hqk : (q.1 == k) = false := by
          have hbq : bad = q.1 := eq_of_beq hq
          subst hbq
          exact hk
        simp only [jlookup, List.filter_cons, hq, Bool.not_true,
          Bool.false_eq_true, if_false, List.find?_cons, hqk, cond_false]
        simp only [jlookup] at ih
        exact ih
      · have hq' : (bad == q.1) = false := by simpa using hq
        by_cases hqk : (q.1 == k) = true
        · simp only [jlookup, List.filter_cons, hq', Bool.not_false, if_true,
            List.find?_cons, hqk, cond_true]
        · have hqk' : (q.1 == k) = false := by simpa using hqk
          simp only [jlookup, List.filter_cons, hq', Bool.not_false, if_true,
            List.find?_cons, hqk', cond_false]
          simp only [jlookup] at ih
          exact ih

theorem jlookup_pyUpdate_single (k0 : String) (u : JValue) (b : Params)
    (k : String) (v : JValue) (h : jlookup b k = some v) :
    jlookup (pyUpdate [(k0, u)] b) k = some v := by
  by_cases hk : (k0 == k) = true
  · have hk' : k0 = k := eq_of_beq hk
    subst hk'
    cases hb : jlookup b k0 with
    | none => rw [h] at hb; cases hb
    | some w =>
        rw [hb] at h
        injection h with hwv
        subst hwv
        simp only [pyUpdate, List.map_cons, List.map_nil, List.any_cons,
          List.any_nil, Bool.or_false, hb, List.cons_append, List.nil_append]
        simp [jlookup, List.find?_cons]
  · have hk0 : (k0 == k) = false := by simpa using hk
    have hf := jlookup_filter_other b k k0 hk0
    rw [h] at hf
    cases hb : jlookup b k0 with
    | none =>
        simp only [pyUpdate, List.map_cons, List.map_nil, List.any_cons,
          List.any_nil, Bool.or_false, hb, List.cons_append, List.nil_append]
        simpa [jlookup, List.find?_cons, hk0] using hf
    | some w =>
        simp only [pyUpdate, List.map_cons, List.map_nil, List.any_cons,
          List.any_nil, Bool.or_false, hb, List.cons_append, List.nil_append]
        simpa [jlookup, List.find?_cons, hk0] using hf

theorem retrySendAux_spec (attempt : Nat → Except NPSAPIError JValue) :
    ∀ (remaining i : Nat),
      i + 1 ≤ (retrySendAux attempt i remaining).2
      ∧ (retrySendAux attempt i remaining).2 ≤ i + remaining + 1
      ∧ (∀ e, (retrySendAux attempt i remaining).1 = .error e →
          attempt ((retrySendAux attempt i remaining).2 - 1) = .error e)
      ∧ (∀ j, i ≤ j → j + 1 < (retrySendAux attempt i remaining).2 →
          ∃ e, attempt j = .error e ∧ isTransient e.error_type = true) := by
  intro remaining
  induction remaining with
  | zero =>
      intro i
      cases ha : attempt i with
      | ok v =>
          have hr : retrySendAux attempt i 0 = (.ok v, i + 1) := by
            rw [retrySendAux.eq_def]
            simp only [ha]
          rw [hr]
          refine ⟨le_refl _, by omega, ?_, ?_⟩
          · intro e he
            cases he
          · intro j hij hj
            have hj' : j + 1 < i + 1 := hj
            omega
      | error e =>
          have hr : retrySendAux attempt i 0 = (.error e, i + 1) := by
            rw [retrySendAux.eq_def]
            simp only [ha]
          rw [hr]
          refine ⟨le_refl _, by omega, ?_, ?_⟩
          · intro e' he'
            have he2 : Except.error e = Except.error e' := he'
            injection he2 with h1
            subst h1
            exact ha
          · intro j hij hj
            have hj' : j + 1 < i + 1 := hj
            omega
  | succ r ih =>
      intro i
      cases ha : attempt i with
      | ok v =>
          have hr : retrySendAux attempt i (r + 1) = (.ok v, i + 1) := by
            rw [retrySendAux.eq_def]
            simp only [ha]
          rw [hr]
          refine ⟨le_refl _, by omega, ?_, ?_⟩
          · intro e he
            cases he
          · intro j hij hj
            have hj' : j + 1 < i + 1 := hj
            omega
      | error e =>
          by_cases ht : isTransient e.error_type = true
          · have hr : retrySendAux attempt i (r + 1)
                = retrySendAux attempt (i + 1) r := by
              rw [retrySendAux.eq_def]
              simp only [ha, ht, if_true]
            have ihs := ih (i + 1)
            rw [hr]
            refine ⟨by omega, by omega, ihs.2.2.1, ?_⟩
            intro j hij hj
            by_cases hji : j = i
            · subst hji
              exact ⟨e, ha, ht⟩
            · exact ihs.2.2.2 j (by omega) hj
          · have ht' : isTransient e.error_type = false := by simpa using ht
            have hr : retrySendAux attempt i (r + 1) = (.error e, i + 1) := by
              rw [retrySendAux.eq_def]
              simp only [ha, ht', Bool.false_eq_true, if_false]
            rw [hr]
            refine ⟨le_refl _, by omega, ?_, ?_⟩
            · intro e' he'
              have he2 : Except.error e = Except.error e' := he'
              injection he2 with h1
              subst h1
              exact ha
            · intro j hij hj
              have hj' : j + 1 < i + 1 := hj
              omega

theorem build_weather_primary_path (owKey : Option String)
    (owNet omNet : Oracle) (lat lon : Rat) (units : String)
    (language : Option String) (data : JValue)
    (h1 : (get_openweather_current owKey owNet lat lon units language).1
      = .ok data)
    (hwf : wfOpenweather data = true) :
    ∃ cur, build_weather_response owKey owNet omNet lat lon units language
      = (.ok (.obj [
          ("location", .obj [("latitude", .num lat), ("longitude", .num lon)]),
          ("units", openweather_units units),
          ("current", .obj cur),
          ("source", .obj [("provider", .str "OpenWeather"),
                           ("fallback", .bool false)])]),
         (get_openweather_current owKey owNet lat lon units language).2) := by
  obtain ⟨cur, hshape, hkeys⟩ :=
    normalize_openweather_shape data units lat lon hwf
  refine ⟨cur, ?_⟩
  rw [build_weather_response]
  rw [h1]
  simp only [hshape]

theorem build_weather_fallback_path (owKey : Option String)
    (owNet omNet : Oracle) (lat lon : Rat) (units : String)
    (language : Option String) (e1 : NPSAPIError) (data : JValue)
    (h1 : (get_openweather_current owKey owNet lat lon units language).1
      = .error e1)
    (h2 : omNet (open_meteo_params lat lon units) = .ok data)
    (hwf : wfOpenMeteo data = true) :
    ∃ tU wU cur,
      build_weather_response owKey owNet omNet lat lon units language
      = (.ok (.obj [
          ("location", .obj [("latitude", .num lat), ("longitude", .num lon)]),
          ("units", .obj [("temperature", tU), ("windSpeed", wU)]),
          ("current", .obj cur),
          ("source", .obj [("provider", .str "Open-Meteo"),
                           ("fallback", .bool true),
                           ("units", .str units),
                           ("fallbackReason",
                            .str "OpenWeather unavailable")])]),
         (get_openweather_current owKey owNet lat lon units language).2
           ++ [("open_meteo_forecast", open_meteo_params lat lon units)]) := by
  obtain ⟨tU, wU, cur, hshape, hkeys⟩ :=
    normalize_open_meteo_shape data units lat lon hwf
  refine ⟨tU, wU, cur, ?_⟩
  rw [build_weather_response]
  rw [h1]
  simp only [get_open_meteo_current, h2, hshape]
  simp [jset, jget, pyGet, jlookup]

theorem build_weather_both_fail (owKey : Option String)
    (owNet omNet : Oracle) (lat lon : Rat) (units : String)
    (language : Option String) (e1 e2 : NPSAPIError)
    (h1 : (get_openweather_current owKey owNet lat lon units language).1
      = .error e1)
    (h2 : omNet (open_meteo_params lat lon units) = .error e2) :
    build_weather_response owKey owNet omNet lat lon units language
      = (.error (.api e2),
         (get_openweather_current owKey owNet lat lon units language).2
           ++ [("open_meteo_forecast", open_meteo_params lat lon units)]) := by
  rw [build_weather_response]
  rw [h1]
  simp only [get_open_meteo_current, h2]

/-! ## Claim theorems -/

/-- C2: for every composite park-context call, if the mandatory
park-details lookup fails — by raising an `NPSAPIError` or by returning
an error document — the whole operation fails with that same error, and
neither the weather nor the air-quality sub-lookup is attempted: the call
trace holds exactly the park-details call and no provider call. -/
theorem C2_mandatory_failure_short_circuits
    (owKey aqKey : Option String) (owNet omNet aqNet : Oracle)
    (parkCode : String) (unitsOpt : Option String) (now : String) :
    (∀ e : NPSAPIError,
      get_park_context (.error e) owKey owNet omNet aqKey aqNet parkCode
        unitsOpt now
      = (.error e, [("get_park_details", [("parkCode", .str parkCode)])]))
    ∧ (∀ pd : JValue, parkErrorish pd = true →
      get_park_context (.ok pd) owKey owNet omNet aqKey aqNet parkCode
        unitsOpt now
      = (.ok pd, [("get_park_details", [("parkCode", .str parkCode)])])) := by
  refine ⟨fun e => rfl, fun pd hp => ?_⟩
  simp only [get_park_context, hp, if_true]

/-- Witness for C2 at a concrete error document returned by the
park-details lookup. -/
theorem C2_mandatory_failure_short_circuits_witness :
    get_park_context (.ok (.obj [("error", .str "not_found")])) (some "ow")
      (fun _ => .ok .null) (fun _ => .ok .null) (some "aq")
      (fun _ => .ok .null) "yose" none "2024-03-10T12:00:00+00:00"
    = (.ok (.obj [("error", .str "not_found")]),
       [("get_park_details", [("parkCode", .str "yose")])]) :=
  (C2_mandatory_failure_short_circuits (some "ow") (some "aq")
    (fun _ => .ok .null) (fun _ => .ok .null) (fun _ => .ok .null)
    "yose" none "2024-03-10T12:00:00+00:00").2
    (.obj [("error", .str "not_found")]) (by decide)

/-- C7: for every composite park-context call whose mandatory lookup
succeeds (and does not itself return an error document) but whose
result's latitude or longitude is absent or unparseable as a number, the
call returns the structured `context_error` document — whose `error`
field is `"context_error"` — and neither the weather nor the air-quality
sub-lookup is attempted (the trace holds only the park-details call). -/
theorem C7_missing_coordinates_context_error
    (pd : JValue) (lfs : Params)
    (owKey aqKey : Option String) (owNet omNet aqNet : Oracle)
    (parkCode : String) (unitsOpt : Option String) (now : String)
    (hne : parkErrorish pd = false)
    (hloc : parkLocationValue pd = .obj lfs)
    (hbad : parse_coordinate (pyGet lfs "latitude") = none
          ∨ parse_coordinate (pyGet lfs "longitude") = none) :
    get_park_context (.ok pd) owKey owNet omNet aqKey aqNet parkCode
      unitsOpt now
    = (.ok (build_context_error
        "Park location coordinates are unavailable for this park."
        parkCode),
       [("get_park_details", [("parkCode", .str parkCode)])])
    ∧ jget (build_context_error
        "Park location coordinates are unavailable for this park."
        parkCode) "error" = .str "context_error" := by
  refine ⟨?_, rfl⟩
  simp only [get_park_context, hne, Bool.false_eq_true, if_false, hloc]
  rcases hbad with hlat | hlon
  · rw [hlat]
  · cases hlat2 : parse_coordinate (pyGet lfs "latitude") with
    | none => rfl
    | some lat => rw [hlon]

/-- Witness for C7 at a concrete park document whose longitude is missing
and whose latitude is an unparseable string. -/
theorem C7_missing_coordinates_context_error_witness :
    get_park_context
      (.ok (.obj [("name", .str "Yosemite"),
                  ("location", .obj [("latitude", .str "unknown")])]))
      (some "ow") (fun _ => .ok .null) (fun _ => .ok .null) (some "aq")
      (fun _ => .ok .null) "yose" (some "metric") "2024-03-10T12:00:00+00:00"
    = (.ok (build_context_error
        "Park location coordinates are unavailable for this park." "yose"),
       [("get_park_details", [("parkCode", .str "yose")])])
    ∧ jget (build_context_error
        "Park location coordinates are unavailable for this park." "yose")
        "error" = .str "context_error" :=
  C7_missing_coordinates_context_error
    (.obj [("name", .str "Yosemite"),
           ("location", .obj [("latitude", .str "unknown")])])
    [("latitude", .str "unknown")]
    (some "ow") (some "aq") (fun _ => .ok .null) (fun _ => .ok .null)
    (fun _ => .ok .null) "yose" (some "metric") "2024-03-10T12:00:00+00:00"
    (by decide) rfl (Or.inr (by decide))

/-- C8: for every air-quality lookup with no configured AirVisual
credential (absent or empty), the call fails immediately with the
`missing_api_key` error and the trace is empty — zero network calls —
both at the client (`get_nearest_city`) and through the handler
(`build_air_quality_response`). -/
theorem C8_missing_airvisual_key_no_network
    (key : Option String) (net : Oracle) (lat lon : Rat)
    (h : strFalsy key = true) :
    get_nearest_city key net lat lon = (.error airvisualKeyError, [])
    ∧ build_air_quality_response key net lat lon
        = (.error (.api airvisualKeyError), [])
    ∧ airvisualKeyError.error_type = "missing_api_key" := by
  have h1 : get_nearest_city key net lat lon = (.error airvisualKeyError, []) := by
    simp only [get_nearest_city, h, if_true]
  refine ⟨h1, ?_, rfl⟩
  simp only [build_air_quality_response, h1]

/-- Witness for C8 with no configured key. -/
theorem C8_missing_airvisual_key_no_network_witness :
    get_nearest_city none (fun _ => .ok .null) 37 (-119)
      = (.error airvisualKeyError, [])
    ∧ build_air_quality_response none (fun _ => .ok .null) 37 (-119)
        = (.error (.api airvisualKeyError), [])
    ∧ airvisualKeyError.error_type = "missing_api_key" :=
  C8_missing_airvisual_key_no_network none (fun _ => .ok .null) 37 (-119) rfl

/-- C4: one send through the retrying transport performs at most
`max_retries + 1` attempts; whenever it raises, the raised error is the
classification of the final attempt performed; every non-final (retried)
attempt failed with a transient classification (`timeout_error` or
`network_error` — the only retried kinds); and a first attempt failing
with any non-transient classification propagates immediately after
exactly one attempt.  (Modelled from the spec: `src/api/retry.py` is not
among the sources under study.) -/
theorem C4_retry_bounds_and_eligibility
    (cfg : RetryConfig) (attempt : Nat → Except NPSAPIError JValue) :
    (retrySend cfg attempt).2 ≤ cfg.max_retries + 1
    ∧ (∀ e, (retrySend cfg attempt).1 = .error e →
        attempt ((retrySend cfg attempt).2 - 1) = .error e)
    ∧ (∀ j, j + 1 < (retrySend cfg attempt).2 →
        ∃ e, attempt j = .error e ∧ isTransient e.error_type = true)
    ∧ (∀ e, attempt 0 = .error e → isTransient e.error_type = false →
        retrySend cfg attempt = (.error e, 1)) := by
  have hs := retrySendAux_spec attempt cfg.max_retries 0
  refine ⟨?_, hs.2.2.1, fun j hj => hs.2.2.2 j (Nat.zero_le j) hj, ?_⟩
  · have h2 := hs.2.1
    show (retrySendAux attempt 0 cfg.max_retries).2 ≤ cfg.max_retries + 1
    omega
  · intro e ha ht
    rw [retrySend]
    cases cfg.max_retries with
    | zero =>
        rw [retrySendAux.eq_def]
        simp only [ha]
    | succ r =>
        rw [retrySendAux.eq_def]
        simp only [ha, ht, Bool.false_eq_true, if_false]

/-- Witness for C4: a non-transient (`http_error`) first failure is
raised after exactly one attempt. -/
theorem C4_retry_bounds_and_eligibility_witness :
    retrySend ⟨2, 1, 30, 2⟩
      (fun _ => .error { message := .str "boom", error_type := "http_error" })
    = (.error { message := .str "boom", error_type := "http_error" }, 1) :=
  (C4_retry_bounds_and_eligibility ⟨2, 1, 30, 2⟩
    (fun _ => .error { message := .str "boom", error_type := "http_error" })).2.2.2
    { message := .str "boom", error_type := "http_error" } rfl rfl

/-- C3: for the weather capability with providers ordered
[OpenWeather, Open-Meteo]: if OpenWeather succeeds (on a well-formed
payload), the result's provenance is `{provider: OpenWeather,
fallback: false}`; if OpenWeather fails with any canonical error
whatsoever — eligibility does not depend on the kind, the error is
universally quantified — and Open-Meteo succeeds, the provenance is
`{provider: Open-Meteo, fallback: true}` with a non-empty
`fallbackReason`; if both fail, the operation's failure equals
Open-Meteo's classified error. -/
theorem C3_fallback_orchestration
    (owKey : Option String) (owNet omNet : Oracle) (lat lon : Rat)
    (units : String) (language : Option String) :
    (∀ data,
      (get_openweather_current owKey owNet lat lon units language).1
        = .ok data →
      wfOpenweather data = true →
      ∃ doc, (build_weather_response owKey owNet omNet lat lon units
          language).1 = .ok doc
        ∧ jget doc "source" = .obj [("provider", .str "OpenWeather"),
                                    ("fallback", .bool false)])
    ∧ (∀ e1 data,
      (get_openweather_current owKey owNet lat lon units language).1
        = .error e1 →
      omNet (open_meteo_params lat lon units) = .ok data →
      wfOpenMeteo data = true →
      ∃ doc, (build_weather_response owKey owNet omNet lat lon units
          language).1 = .ok doc
        ∧ jget (jget doc "source") "provider" = .str "Open-Meteo"
        ∧ jget (jget doc "source") "fallback" = .bool true
        ∧ ∃ reason, jget (jget doc "source") "fallbackReason" = .str reason
            ∧ reason ≠ "")
    ∧ (∀ e1 e2,
      (get_openweather_current owKey owNet lat lon units language).1
        = .error e1 →
      omNet (open_meteo_params lat lon units) = .error e2 →
      (build_weather_response owKey owNet omNet lat lon units language).1
        = .error (.api e2)) := by
  refine ⟨?_, ?_, ?_⟩
  · intro data h1 hwf
    obtain ⟨cur, hb⟩ := build_weather_primary_path owKey owNet omNet lat lon
      units language data h1 hwf
    refine ⟨_, by rw [hb], ?_⟩
    simp [jget, pyGet, jlookup]
  · intro e1 data h1 h2 hwf
    obtain ⟨tU, wU, cur, hb⟩ := build_weather_fallback_path owKey owNet omNet
      lat lon units language e1 data h1 h2 hwf
    refine ⟨_, by rw [hb], ?_, ?_, "OpenWeather unavailable", ?_, by decide⟩
    · simp [jget, pyGet, jlookup]
    · simp [jget, pyGet, jlookup]
    · simp [jget, pyGet, jlookup]
  · intro e1 e2 h1 h2
    rw [build_weather_both_fail owKey owNet omNet lat lon units language
      e1 e2 h1 h2]

/-- Witness for C3 exercising the fallback clause at concrete oracles:
the primary times out, the secondary returns a well-formed payload. -/
theorem C3_fallback_orchestration_witness :
    ∃ doc, (build_weather_response (some "k")
        (fun _ => .error { message := .str "Request timed out",
                           error_type := "timeout_error" })
        (fun _ => .ok (.obj [("current",
            .obj [("temperature_2m", .num 21)])]))
        37 (-119) "metric" none).1 = .ok doc
      ∧ jget (jget doc "source") "provider" = .str "Open-Meteo"
      ∧ jget (jget doc "source") "fallback" = .bool true
      ∧ ∃ reason, jget (jget doc "source") "fallbackReason" = .str reason
          ∧ reason ≠ "" :=
  (C3_fallback_orchestration (some "k")
    (fun _ => .error { message := .str "Request timed out",
                       error_type := "timeout_error" })
    (fun _ => .ok (.obj [("current", .obj [("temperature_2m", .num 21)])]))
    37 (-119) "metric" none).2.1
    { message := .str "Request timed out", error_type := "timeout_error" }
    (.obj [("current", .obj [("temperature_2m", .num 21)])])
    rfl rfl (by decide)

/-- C5 counterexample: at the concrete fallback scenario's coordinates
`(37, -119)` with `units = "metric"`, the query sent to the secondary
provider carries no unit parameters at all — `temperature_unit` and
`wind_speed_unit` are absent, so the request does not specify Celsius or
metres per second; it consists of exactly `latitude`, `longitude` and the
`current` field list. -/
theorem C5_metric_query_has_no_unit_params :
    jlookup (open_meteo_params 37 (-119) "metric") "temperature_unit" = none
    ∧ jlookup (open_meteo_params 37 (-119) "metric") "wind_speed_unit" = none
    ∧ open_meteo_params 37 (-119) "metric"
        = [("latitude", .num 37), ("longitude", .num (-119)),
           ("current", .str open_meteo_current_fields)] :=
  ⟨rfl, rfl, rfl⟩

/-- C5 amended: for a metric weather call in which the primary provider
fails, the secondary provider is queried with no unit-override parameters
(relying on the provider's defaults) — only for `units = "imperial"` are
`temperature_unit=fahrenheit` and `wind_speed_unit=mph` sent — and the
fallback result carries `source.provider = "Open-Meteo"` and
`source.fallback = true`, the trace showing the unit-override-free query
actually issued. -/
theorem C5_amended_secondary_query_units
    (lat lon : Rat) (owKey : Option String) (owNet omNet : Oracle) :
    (open_meteo_params lat lon "metric"
      = [("latitude", .num lat), ("longitude", .num lon),
         ("current", .str open_meteo_current_fields)])
    ∧ jlookup (open_meteo_params lat lon "imperial") "temperature_unit"
        = some (.str "fahrenheit")
    ∧ jlookup (open_meteo_params lat lon "imperial") "wind_speed_unit"
        = some (.str "mph")
    ∧ (∀ e1 data,
      (get_openweather_current owKey owNet lat lon "metric" none).1
        = .error e1 →
      omNet (open_meteo_params lat lon "metric") = .ok data →
      wfOpenMeteo data = true →
      ∃ doc, (build_weather_response owKey owNet omNet lat lon "metric"
          none).1 = .ok doc
        ∧ jget (jget doc "source") "provider" = .str "Open-Meteo"
        ∧ jget (jget doc "source") "fallback" = .bool true
        ∧ ("open_meteo_forecast", open_meteo_params lat lon "metric")
            ∈ (build_weather_response owKey owNet omNet lat lon "metric"
                none).2) := by
  refine ⟨rfl, rfl, rfl, ?_⟩
  intro e1 data h1 h2 hwf
  obtain ⟨tU, wU, cur, hb⟩ := build_weather_fallback_path owKey owNet omNet
    lat lon "metric" none e1 data h1 h2 hwf
  refine ⟨_, by rw [hb], ?_, ?_, ?_⟩
  · simp [jget, pyGet, jlookup]
  · simp [jget, pyGet, jlookup]
  · rw [hb]
    simp

/-- Witness for C5's amended fallback clause at concrete oracles. -/
theorem C5_amended_secondary_query_units_witness :
    ∃ doc, (build_weather_response (some "k")
        (fun _ => .error { message := .str "Request timed out",
                           error_type := "timeout_error" })
        (fun _ => .ok (.obj [("current_units",
            .obj [("temperature_2m", .str "C"),
                  ("wind_speed_10m", .str "m/s")])]))
        37 (-119) "metric" none).1 = .ok doc
      ∧ jget (jget doc "source") "provider" = .str "Open-Meteo"
      ∧ jget (jget doc "source") "fallback" = .bool true
      ∧ ("open_meteo_forecast", open_meteo_params 37 (-119) "metric")
          ∈ (build_weather_response (some "k")
              (fun _ => .error { message := .str "Request timed out",
                                 error_type := "timeout_error" })
              (fun _ => .ok (.obj [("current_units",
                  .obj [("temperature_2m", .str "C"),
                        ("wind_speed_10m", .str "m/s")])]))
              37 (-119) "metric" none).2 :=
  (C5_amended_secondary_query_units 37 (-119) (some "k")
    (fun _ => .error { message := .str "Request timed out",
                       error_type := "timeout_error" })
    (fun _ => .ok (.obj [("current_units",
        .obj [("temperature_2m", .str "C"),
              ("wind_speed_10m", .str "m/s")])]))).2.2.2
    { message := .str "Request timed out", error_type := "timeout_error" }
    (.obj [("current_units", .obj [("temperature_2m", .str "C"),
                                   ("wind_speed_10m", .str "m/s")])])
    rfl rfl (by decide)

/-- C6: every failure of one HTTP GET through `ExternalAPIClient.get` is
classified into exactly one canonical kind: a deadline exceeded raises
`timeout_error`; a connection failure raises `network_error`; a non-2xx
response raises `http_error` carrying the upstream status code and, when
the body parses as a JSON object, every field of that object (its message
included) merged into the details; a 2xx response whose body is not
parseable JSON raises `parse_error`; any other failure raises
`unknown_error` — and every raised error bears one of these five kinds
(the classification is a total function of the outcome). -/
theorem C6_error_classification_total (url : String) :
    (∃ e, client_get .timeout url = .error e
      ∧ e.error_type = "timeout_error")
    ∧ (∀ m, ∃ e, client_get (.networkError m) url = .error e
        ∧ e.error_type = "network_error")
    ∧ (∀ status body, is2xx status = false →
        ∃ e, client_get (.response status body) url = .error e
          ∧ e.error_type = "http_error"
          ∧ e.status_code = some status
          ∧ (∀ fs txt k v, body = .jsonBody (.obj fs) txt →
              jlookup fs k = some v → jlookup e.details k = some v))
    ∧ (∀ status txt, is2xx status = true →
        ∃ e, client_get (.response status (.rawBody txt)) url = .error e
          ∧ e.error_type = "parse_error")
    ∧ (∀ m, ∃ e, client_get (.otherFailure m) url = .error e
        ∧ e.error_type = "unknown_error")
    ∧ (∀ outcome e, client_get outcome url = .error e →
        e.error_type = "timeout_error" ∨ e.error_type = "network_error"
        ∨ e.error_type = "http_error" ∨ e.error_type = "parse_error"
        ∨ e.error_type = "unknown_error") := by
  refine ⟨⟨_, rfl, rfl⟩, fun m => ⟨_, rfl, rfl⟩, ?_, ?_, fun m => ⟨_, rfl, rfl⟩, ?_⟩
  · intro status body hs
    cases body with
    | jsonBody v txt =>
        cases v with
        | obj fs =>
            refine ⟨{ message := (jlookup fs "message").getD
                        (.str ("HTTP " ++ toString status ++ " error")),
                      error_type := "http_error",
                      status_code := some status,
                      details := pyUpdate [("url", .str url)] fs }, ?_, rfl, rfl, ?_⟩
            · show handle_response status (.jsonBody (.obj fs) txt) url = _
              rw [handle_response]
              simp only [hs, Bool.false_eq_true, if_false]
            · intro fs2 txt2 k v heq hlk
              injection heq with hv htxt
              injection hv with hfs
              subst hfs
              exact jlookup_pyUpdate_single "url" (.str url) fs k v hlk
        | null =>
            refine ⟨{ message := .str ("HTTP " ++ toString status ++ " error"),
                      error_type := "http_error",
                      status_code := some status,
                      details := [("url", .str url)] }, ?_, rfl, rfl, ?_⟩
            · show handle_response status (.jsonBody .null txt) url = _
              rw [handle_response]
              simp only [hs, Bool.false_eq_true, if_false]
            · intro fs2 txt2 k v heq hlk
              injection heq with hv htxt
              injection hv
        | bool b =>
            refine ⟨{ message := .str ("HTTP " ++ toString status ++ " error"),
                      error_type := "http_error",
                      status_code := some status,
                      details := [("url", .str url)] }, ?_, rfl, rfl, ?_⟩
            · show handle_response status (.jsonBody (.bool b) txt) url = _
              rw [handle_response]
              simp only [hs, Bool.false_eq_true, if_false]
            · intro fs2 txt2 k v heq hlk
              injection heq with hv htxt
              injection hv
        | num q =>
            refine ⟨{ message := .str ("HTTP " ++ toString status ++ " error"),
                      error_type := "http_error",
                      status_code := some status,
                      details := [("url", .str url)] }, ?_, rfl, rfl, ?_⟩
            · show handle_response status (.jsonBody (.num q) txt) url = _
              rw [handle_response]
              simp only [hs, Bool.false_eq_true, if_false]
            · intro fs2 txt2 k v heq hlk
              injection heq with hv htxt
              injection hv
        | str s =>
            refine ⟨{ message := .str ("HTTP " ++ toString status ++ " error"),
                      error_type := "http_error",
                      status_code := some status,
                      details := [("url", .str url)] }, ?_, rfl, rfl, ?_⟩
            · show handle_response status (.jsonBody (.str s) txt) url = _
              rw [handle_response]
              simp only [hs, Bool.false_eq_true, if_false]
            · intro fs2 txt2 k v heq hlk
              injection heq with hv htxt
              injection hv
        | arr xs =>
            refine ⟨{ message := .str ("HTTP " ++ toString status ++ " error"),
                      error_type := "http_error",
                      status_code := some status,
                      details := [("url", .str url)] }, ?_, rfl, rfl, ?_⟩
            · show handle_response status (.jsonBody (.arr xs) txt) url = _
              rw [handle_response]
              simp only [hs, Bool.false_eq_true, if_false]
            · intro fs2 txt2 k v heq hlk
              injection heq with hv htxt
              injection hv
    | rawBody txt =>
        refine ⟨{ message := .str ("HTTP " ++ toString status ++ " error"),
                  error_type := "http_error",
                  status_code := some status,
                  details := [("url", .str url),
                              ("response_text", .str (txt.take 500))] },
                ?_, rfl, rfl, ?_⟩
        · show handle_response status (.rawBody txt) url = _
          rw [handle_response]
          simp only [hs, Bool.false_eq_true, if_false]
          rfl
        · intro fs2 txt2 k v heq hlk
          injection heq
  · intro status txt hs
    refine ⟨{ message := .str "Failed to parse API response",
              error_type := "parse_error",
              status_code := some status,
              details := [("error", .str "JSONDecodeError"),
                          ("response_text", .str (txt.take 500))] },
            ?_, rfl⟩
    show handle_response status (.rawBody txt) url = _
    rw [handle_response]
    simp only [hs, if_true]
  · intro outcome e he
    cases outcome with
    | timeout =>
        injection he with h1
        subst h1
        exact Or.inl rfl
    | networkError m =>
        injection he with h1
        subst h1
        exact Or.inr (Or.inl rfl)
    | otherFailure m =>
        injection he with h1
        subst h1
        exact Or.inr (Or.inr (Or.inr (Or.inr rfl)))
    | response status body =>
        have he2 : handle_response status body url = .error e := he
        by_cases hs : is2xx status = true
        · cases body with
          | jsonBody v txt =>
              rw [handle_response] at he2
              simp only [hs, if_true] at he2
              exact Except.noConfusion he2
          | rawBody txt =>
              rw [handle_response] at he2
              simp only [hs, if_true] at he2
              injection he2 with h1
              subst h1
              exact Or.inr (Or.inr (Or.inr (Or.inl rfl)))
        · have hs2 : is2xx status = false := by simpa using hs
          cases body with
          | jsonBody v txt =>
              rw [handle_response] at he2
              simp only [hs2, Bool.false_eq_true, if_false] at he2
              cases v with
              | obj fs =>
                  injection he2 with h1
                  subst h1
                  exact Or.inr (Or.inr (Or.inl rfl))
              | null =>
                  injection he2 with h1
                  subst h1
                  exact Or.inr (Or.inr (Or.inl rfl))
              | bool b =>
                  injection he2 with h1
                  subst h1
                  exact Or.inr (Or.inr (Or.inl rfl))
              | num q =>
                  injection he2 with h1
                  subst h1
                  exact Or.inr (Or.inr (Or.inl rfl))
              | str s =>
                  injection he2 with h1
                  subst h1
                  exact Or.inr (Or.inr (Or.inl rfl))
              | arr xs =>
                  injection he2 with h1
                  subst h1
                  exact Or.inr (Or.inr (Or.inl rfl))
          | rawBody txt =>
              rw [handle_response] at he2
              simp only [hs2, Bool.false_eq_true, if_false] at he2
              injection he2 with h1
              subst h1
              exact Or.inr (Or.inr (Or.inl rfl))

/-- Witness for C6 at a concrete 404 with a JSON-object body: the
classification is `http_error` with the upstream status, and the body
message is found in the details. -/
theorem C6_error_classification_total_witness :
    ∃ e, client_get (.response 404
        (.jsonBody (.obj [("message", .str "city not found")])
          "raw")) "https://api.example/weather" = .error e
      ∧ e.error_type = "http_error"
      ∧ e.status_code = some 404
      ∧ (∀ fs txt k v,
          BodyContent.jsonBody (.obj [("message", .str "city not found")])
            "raw" = .jsonBody (.obj fs) txt →
          jlookup fs k = some v → jlookup e.details k = some v) :=
  (C6_error_classification_total "https://api.example/weather").2.2.1 404
    (.jsonBody (.obj [("message", .str "city not found")]) "raw")
    (by decide)

/-- C10: in the geocoding and reverse-geocoding handlers, whenever a
provider hit's raw `lat` (resp. `lon`) field is falsy — missing, empty
string, or the number 0 — the normalized latitude (resp. longitude) is
null rather than a numeric 0.0; in particular a hit reporting the
equator/prime-meridian point as numeric 0 is returned with null
coordinates. -/
theorem C10_falsy_coordinates_null :
    (∀ (item : Params) (doc : JValue),
      format_geocode_item item = .ok doc →
      (jTruthy (pyGet item "lat") = false → jget doc "latitude" = .null)
      ∧ (jTruthy (pyGet item "lon") = false → jget doc "longitude" = .null))
    ∧ (∀ (result : Params) (doc : JValue), result.isEmpty = false →
      reverse_geocode_response result = .ok doc →
      (jTruthy (pyGet result "lat") = false → jget doc "latitude" = .null)
      ∧ (jTruthy (pyGet result "lon") = false →
          jget doc "longitude" = .null))
    ∧ (∃ doc0, format_geocode_item
        [("display_name", .str "Null Island"), ("lat", .num 0),
         ("lon", .num 0)] = .ok doc0
      ∧ jget doc0 "latitude" = .null ∧ jget doc0 "longitude" = .null) := by
  refine ⟨?_, ?_, ?_⟩
  · intro item doc hfmt
    rw [format_geocode_item] at hfmt
    constructor
    · intro hlat
      rw [hlat] at hfmt
      simp only [Bool.false_eq_true, if_false] at hfmt
      by_cases hl2 : jTruthy (pyGet item "lon") = true
      · rw [hl2] at hfmt
        simp only [if_true] at hfmt
        cases hpf : pyFloat (pyGet item "lon") with
        | error m =>
            rw [hpf] at hfmt
            exact Except.noConfusion hfmt
        | ok q =>
            rw [hpf] at hfmt
            injection hfmt with h1
            subst h1
            simp [jget, pyGet, jlookup]
      · have hl2f : jTruthy (pyGet item "lon") = false := by simpa using hl2
        rw [hl2f] at hfmt
        simp only [Bool.false_eq_true, if_false] at hfmt
        injection hfmt with h1
        subst h1
        simp [jget, pyGet, jlookup]
    · intro hlon
      rw [hlon] at hfmt
      simp only [Bool.false_eq_true, if_false] at hfmt
      by_cases hl2 : jTruthy (pyGet item "lat") = true
      · rw [hl2] at hfmt
        simp only [if_true] at hfmt
        cases hpf : pyFloat (pyGet item "lat") with
        | error m =>
            rw [hpf] at hfmt
            exact Except.noConfusion hfmt
        | ok q =>
            rw [hpf] at hfmt
            injection hfmt with h1
            subst h1
            simp [jget, pyGet, jlookup]
      · have hl2f : jTruthy (pyGet item "lat") = false := by simpa using hl2
        rw [hl2f] at hfmt
        simp only [Bool.false_eq_true, if_false] at hfmt
        injection hfmt with h1
        subst h1
        simp [jget, pyGet, jlookup]
  · intro result doc hne hrev
    rw [reverse_geocode_response] at hrev
    simp only [hne, Bool.false_eq_true, if_false] at hrev
    constructor
    · intro hlat
      rw [hlat] at hrev
      simp only [Bool.false_eq_true, if_false] at hrev
      by_cases hl2 : jTruthy (pyGet result "lon") = true
      · rw [hl2] at hrev
        simp only [if_true] at hrev
        cases hpf : pyFloat (pyGet result "lon") with
        | error m =>
            rw [hpf] at hrev
            exact Except.noConfusion hrev
        | ok q =>
            rw [hpf] at hrev
            injection hrev with h1
            subst h1
            simp [jget, pyGet, jlookup]
      · have hl2f : jTruthy (pyGet result "lon") = false := by simpa using hl2
        rw [hl2f] at hrev
        simp only [Bool.false_eq_true, if_false] at hrev
        injection hrev with h1
        subst h1
        simp [jget, pyGet, jlookup]
    · intro hlon
      rw [hlon] at hrev
      simp only [Bool.false_eq_true, if_false] at hrev
      by_cases hl2 : jTruthy (pyGet result "lat") = true
      · rw [hl2] at hrev
        simp only [if_true] at hrev
        cases hpf : pyFloat (pyGet result "lat") with
        | error m =>
            rw [hpf] at hrev
            exact Except.noConfusion hrev
        | ok q =>
            rw [hpf] at hrev
            injection hrev with h1
            subst h1
            simp [jget, pyGet, jlookup]
      · have hl2f : jTruthy (pyGet result "lat") = false := by simpa using hl2
        rw [hl2f] at hrev
        simp only [Bool.false_eq_true, if_false] at hrev
        injection hrev with h1
        subst h1
        simp [jget, pyGet, jlookup]
  · exact ⟨_, rfl, rfl, rfl⟩

/-- Witness for C10 at a concrete hit whose `lat` is the number 0 and
whose `lon` is present and truthy. -/
theorem C10_falsy_coordinates_null_witness :
    jTruthy (pyGet [("lat", JValue.num 0), ("lon", JValue.str "12.5")]
      "lat") = false
    ∧ ∀ doc, format_geocode_item
        [("lat", JValue.num 0), ("lon", JValue.str "12.5")] = .ok doc →
        jget doc "latitude" = .null :=
  ⟨by decide, fun doc hd =>
    ((C10_falsy_coordinates_null).1
      [("lat", JValue.num 0), ("lon", JValue.str "12.5")] doc hd).1
      (by decide)⟩

theorem airvisual_payload_wf {data : JValue} (h : wfAirvisual data = true) :
    wfAirvisualPayload (airvisual_payload data) = true := by
  cases data with
  | obj fs =>
      rw [wfAirvisual] at h
      rw [airvisual_payload, pyGetD]
      cases hj : jlookup fs "data" with
      | none => rfl
      | some p =>
          rw [hj] at h
          exact h
  | null => rfl
  | bool b => rfl
  | num q => rfl
  | str s => rfl
  | arr xs => rfl

/-- C9: each normalization adapter — OpenWeather weather, Open-Meteo
weather, AirVisual air quality — is total on well-formed provider
payloads (normalization succeeds without raising), and on the payload
lacking every optional field the canonical output still carries every
canonical key, the missing values appearing as explicit nulls (or the
documented unit defaults), never omitted. -/
theorem C9_normalization_totality_nulls (u : String) (lat lon : Rat) :
    (∀ data, wfOpenweather data = true →
      ∃ doc, normalize_openweather data u lat lon = .ok doc)
    ∧ (∀ data, wfOpenMeteo data = true →
      ∃ doc, normalize_open_meteo data u lat lon = .ok doc)
    ∧ (∀ data, wfAirvisual data = true →
      ∃ doc, normalize_airvisual (airvisual_payload data) lat lon = .ok doc)
    ∧ normalize_openweather (.obj []) u lat lon = .ok (.obj [
        ("location", .obj [("latitude", .num lat), ("longitude", .num lon)]),
        ("units", openweather_units u),
        ("current", .obj [
          ("temperature", .null), ("feelsLike", .null), ("humidity", .null),
          ("pressure", .null), ("windSpeed", .null),
          ("windDirection", .null), ("condition", .null),
          ("description", .null), ("timestamp", .null)]),
        ("source", .obj [("provider", .str "OpenWeather"),
                         ("fallback", .bool false)])])
    ∧ normalize_open_meteo (.obj []) u lat lon = .ok (.obj [
        ("location", .obj [("latitude", .num lat), ("longitude", .num lon)]),
        ("units", .obj [("temperature", .str "C"),
                        ("windSpeed", .str "m/s")]),
        ("current", .obj [
          ("temperature", .null), ("feelsLike", .null), ("humidity", .null),
          ("windSpeed", .null), ("windDirection", .null),
          ("conditionCode", .null), ("timestamp", .null)]),
        ("source", .obj [("provider", .str "Open-Meteo"),
                         ("fallback", .bool true), ("units", .str u)])])
    ∧ normalize_airvisual (.obj []) lat lon = .ok (.obj [
        ("location", .obj [
          ("city", .null), ("state", .null), ("country", .null),
          ("coordinates", .obj [("latitude", .num lat),
                                ("longitude", .num lon)])]),
        ("current", .obj [
          ("pollution", .obj [
            ("timestamp", .null), ("aqius", .null), ("mainus", .null),
            ("aqicn", .null), ("maincn", .null)]),
          ("weather", .obj [
            ("timestamp", .null), ("temperature", .null),
            ("pressure", .null), ("humidity", .null), ("windSpeed", .null),
            ("windDirection", .null), ("icon", .null)])]),
        ("source", .obj [("provider", .str "AirVisual")])]) := by
  refine ⟨?_, ?_, ?_, rfl, rfl, rfl⟩
  · intro data h
    obtain ⟨cur, hshape, hkeys⟩ := normalize_openweather_shape data u lat lon h
    exact ⟨_, hshape⟩
  · intro data h
    obtain ⟨tU, wU, cur, hshape, hkeys⟩ :=
      normalize_open_meteo_shape data u lat lon h
    exact ⟨_, hshape⟩
  · intro data h
    obtain ⟨loc, pol, wea, hshape, hk⟩ :=
      normalize_airvisual_shape (airvisual_payload data) lat lon
        (airvisual_payload_wf h)
    exact ⟨_, hshape⟩

/-- Witness for C9 on a concrete sparse OpenWeather payload: a payload
carrying only an empty `main` dict normalizes successfully. -/
theorem C9_normalization_totality_nulls_witness :
    ∃ doc, normalize_openweather (.obj [("main", .obj [])]) "metric" 37
      (-119) = .ok doc :=
  (C9_normalization_totality_nulls "metric" 37 (-119)).1
    (.obj [("main", .obj [])]) (by decide)

/-- C1 counterexample: a concrete composite call whose mandatory
park-details lookup succeeds with parseable coordinates and whose
air-quality oracle would succeed, but whose weather sub-lookup fails on
both providers: the composite call does not return a composite document —
it aborts, re-raising Open-Meteo's error through the outer
`except NPSAPIError: raise` of `get_park_context`. -/
theorem C1_weather_failure_aborts_composite :
    (get_park_context
      (.ok (.obj [("name", .str "Yosemite National Park"),
                  ("location", .obj [("latitude", .num 37),
                                     ("longitude", .num (-119))])]))
      (some "ow")
      (fun _ => .error { message := .str "OpenWeather down",
                         error_type := "http_error" })
      (fun _ => .error { message := .str "Open-Meteo down",
                         error_type := "network_error" })
      (some "aq")
      (fun _ => .ok (.obj [("data", .obj [("city", .str "Yosemite Valley")])]))
      "yose" (some "metric") "2024-03-10T12:00:00+00:00").1
    = .error { message := .str "Open-Meteo down",
               error_type := "network_error" } := rfl

/-- C1 amended: in a composite park-context call whose mandatory lookup
succeeds with parseable coordinates, a failure of the air-quality
sub-lookup never aborts the composite — the call returns a composite
document whose `airQuality` slot holds the canonical error document,
discriminable by its `error` field, while the other slots keep their
normal shape; a weather sub-lookup failure (both providers failing),
however, propagates as the whole operation's failure. -/
theorem C1_amended_partial_failure_policy
    (pd : JValue) (lfs : Params) (lat lon : Rat)
    (owKey aqKey : Option String) (owNet omNet aqNet : Oracle)
    (parkCode : String) (unitsOpt : Option String) (now : String)
    (hne : parkErrorish pd = false)
    (hloc : parkLocationValue pd = .obj lfs)
    (hlat : parse_coordinate (pyGet lfs "latitude") = some lat)
    (hlon : parse_coordinate (pyGet lfs "longitude") = some lon) :
    (∀ weather e,
      (build_weather_response owKey owNet omNet lat lon
        (pyOrStr unitsOpt "metric") none).1 = .ok weather →
      (build_air_quality_response aqKey aqNet lat lon).1 = .error (.api e) →
      (get_park_context (.ok pd) owKey owNet omNet aqKey aqNet parkCode
        unitsOpt now).1
      = .ok (.obj [
          ("park", pd),
          ("location", .obj [("latitude", .num lat),
                             ("longitude", .num lon)]),
          ("weather", weather),
          ("airQuality",
           errorResponseDump e.error_type e.message e.details),
          ("contextGeneratedAt", .str now)])
      ∧ jget (errorResponseDump e.error_type e.message e.details) "error"
          = .str e.error_type)
    ∧ (∀ e2,
      (build_weather_response owKey owNet omNet lat lon
        (pyOrStr unitsOpt "metric") none).1 = .error (.api e2) →
      (get_park_context (.ok pd) owKey owNet omNet aqKey aqNet parkCode
        unitsOpt now).1 = .error e2) := by
  constructor
  · intro weather e hw ha
    refine ⟨?_, rfl⟩
    simp only [get_park_context, hne, Bool.false_eq_true, if_false, hloc,
      hlat, hlon, hw, ha]
  · intro e2 hw
    simp only [get_park_context, hne, Bool.false_eq_true, if_false, hloc,
      hlat, hlon, hw]

/-- Witness for C1's amended policy: concrete composite call with a
successful weather lookup and a missing AirVisual key — the composite
succeeds, its `airQuality` slot holding the `missing_api_key` error
document. -/
theorem C1_amended_partial_failure_policy_witness :
    (get_park_context
      (.ok (.obj [("name", .str "Yosemite National Park"),
                  ("location", .obj [("latitude", .num 37),
                                     ("longitude", .num (-119))])]))
      (some "ow")
      (fun _ => .ok (.obj [("main", .obj [("temp", .num 20)])]))
      (fun _ => .error { message := .str "unused",
                         error_type := "network_error" })
      none
      (fun _ => .ok .null)
      "yose" (some "metric") "2024-03-10T12:00:00+00:00").1
    = .ok (.obj [
        ("park", .obj [("name", .str "Yosemite National Park"),
                       ("location", .obj [("latitude", .num 37),
                                          ("longitude", .num (-119))])]),
        ("location", .obj [("latitude", .num 37),
                           ("longitude", .num (-119))]),
        ("weather", .obj [
          ("location", .obj [("latitude", .num 37),
                             ("longitude", .num (-119))]),
          ("units", .obj [("temperature", .str "C"),
                          ("windSpeed", .str "m/s")]),
          ("current", .obj [
            ("temperature", .num 20), ("feelsLike", .null),
            ("humidity", .null), ("pressure", .null), ("windSpeed", .null),
            ("windDirection", .null), ("condition", .null),
            ("description", .null), ("timestamp", .null)]),
          ("source", .obj [("provider", .str "OpenWeather"),
                           ("fallback", .bool false)])]),
        ("airQuality",
         errorResponseDump airvisualKeyError.error_type
           airvisualKeyError.message airvisualKeyError.details),
        ("contextGeneratedAt", .str "2024-03-10T12:00:00+00:00")])
    ∧ jget (errorResponseDump airvisualKeyError.error_type
        airvisualKeyError.message airvisualKeyError.details) "error"
        = .str airvisualKeyError.error_type :=
  (C1_amended_partial_failure_policy
    (.obj [("name", .str "Yosemite National Park"),
           ("location", .obj [("latitude", .num 37),
                              ("longitude", .num (-119))])])
    [("latitude", .num 37), ("longitude", .num (-119))]
    37 (-119) (some "ow") none
    (fun _ => .ok (.obj [("main", .obj [("temp", .num 20)])]))
    (fun _ => .error { message := .str "unused",
                       error_type := "network_error" })
    (fun _ => .ok .null)
    "yose" (some "metric") "2024-03-10T12:00:00+00:00"
    (by decide) rfl rfl rfl).1
    (.obj [
        ("location", .obj [("latitude", .num 37),
                           ("longitude", .num (-119))]),
        ("units", .obj [("temperature", .str "C"),
                        ("windSpeed", .str "m/s")]),
        ("current", .obj [
          ("temperature", .num 20), ("feelsLike", .null),
          ("humidity", .null), ("pressure", .null), ("windSpeed", .null),
          ("windDirection", .null), ("condition", .null),
          ("description", .null), ("timestamp", .null)]),
        ("source", .obj [("provider", .str "OpenWeather"),
                         ("fallback", .bool false)])])
    airvisualKeyError rfl rfl
